import Mathlib

/-!
# Shallow embedding of the NHCs news-site backend

Each handler of the Express backend is embedded as a pure Lean function over
an explicit database state (a list of records per entity).  External
collaborators are passed in as explicit function parameters: `hashPw` stands
for bcrypt hashing with a fresh salt, `bcompare` for bcrypt.compare, `sha256`
for the SHA-256 hex digest, `signTok` for jwt.sign and `verifyTok` for
jwt.verify.  Environment-dependent values (Date.now, Math.random, the
database-assigned ObjectId, the NODE_ENV-gated error payload) are likewise
explicit arguments.  The `createdAt`/`updatedAt` timestamps are owned by the
external persistence layer (schema-level defaults) and are not part of the
embedded records.  JSON response bodies mirror the object literals passed to
`res.json` in the source.
-/

namespace NhcsBE

/-- JSON-like values, mirroring the object literals that handlers pass to
`res.json`. -/
inductive JVal where
  | jNull : JVal
  | jBool : Bool → JVal
  | jStr : String → JVal
  | jNum : Int → JVal
  | jArr : List JVal → JVal
  | jObj : List (String × JVal) → JVal

/-- An HTTP response: status code plus the JSON body (an ordered field list). -/
structure Response where
  status : Nat
  body : List (String × JVal)

/-- Does the body carry a boolean `success` field? -/
def hasBoolSuccess (body : List (String × JVal)) : Bool :=
  match body.lookup "success" with
  | some (JVal.jBool _) => true
  | _ => false

/-- JS truthiness of an optional string: `undefined` and the empty string are
falsy, every other string is truthy. -/
def jsTruthy : Option String → Bool
  | none => false
  | some s => !s.isEmpty

/-- JS `a || b` over optional strings (the left operand wins when truthy). -/
def jsOrStr (a b : Option String) : Option String :=
  if jsTruthy a then a else b

/-- The `{ success, message }` response literal used throughout the
controllers. -/
def respMsg (status : Nat) (ok : Bool) (msg : String) : Response :=
  { status := status, body := [("success", JVal.jBool ok), ("message", JVal.jStr msg)] }

/-- The catch-all 500 response literal: the `error` field is `error.message`
in development mode and `undefined` (hence absent from the serialized JSON)
otherwise; `e` stands for that environment-dependent value. -/
def resp500 (msg : String) (e : Option String) : Response :=
  { status := 500,
    body := [("success", JVal.jBool false), ("message", JVal.jStr msg)] ++
      (match e with | some s => [("error", JVal.jStr s)] | none => []) }

/-! ## Data model (prisma/schema.prisma) -/

/-- enum UserRole. -/
inductive UserRole where
  | EDITOR
  | ADMIN
deriving Repr, DecidableEq

/-- The string form of a role, as it appears in JSON payloads. -/
def UserRole.str : UserRole → String
  | .EDITOR => "EDITOR"
  | .ADMIN => "ADMIN"

/-- model User (schema defaults: name "Default Name", role EDITOR,
isVerified false, isActive true).  Timestamps are maintained by the
persistence layer and omitted here. -/
structure User where
  id : String
  name : String
  email : String
  password : String
  role : UserRole
  isVerified : Bool
  isActive : Bool
  verificationToken : Option String
  verificationTokenExpires : Option Nat
  resetPasswordToken : Option String
  resetPasswordExpires : Option Nat
deriving Repr, DecidableEq

/-- prisma user.findUnique on the unique `email` column. -/
def findUserByEmail (db : List User) (e : String) : Option User :=
  db.find? (fun u => u.email == e)

/-- prisma user.findUnique on the `id` primary key. -/
def findUserById (db : List User) (i : String) : Option User :=
  db.find? (fun u => u.id == i)

/-- prisma user.update on the `id` primary key: `id` is the `@id` column, so
exactly the record carrying that id is rewritten. -/
def updateUserById (db : List User) (i : String) (f : User → User) : List User :=
  db.map (fun u => if u.id == i then f u else u)

/-- prisma user.delete on the `id` primary key. -/
def deleteUserById (db : List User) (i : String) : List User :=
  db.filter (fun u => u.id != i)

/-! ## controllers/authController.js -/

/-- The request body of POST /signup as destructured by the handler; a field
is `none` when absent from the JSON body. -/
structure SignupReq where
  email : Option String
  password : Option String
deriving Repr, DecidableEq

/-- The tail of signup after the existing-user check: hash the password and
create the user.  A missing password makes bcrypt.hash throw, which the
handler's catch turns into the 500 response (nothing is created). `rand`
stands for `Math.floor(Math.random() * 900000)`, so the stored verification
token is the decimal string of `100000 + rand`. -/
def signupCreate (hashPw : String → String) (errInfo : Option String)
    (rand now : Nat) (newId : String) (email : String) (password : Option String)
    (db : List User) : Response × List User :=
  match password with
  | none => (resp500 "Error creating user" errInfo, db)
  | some pw =>
    let verificationToken := Nat.repr (100000 + rand)
    let user : User :=
      { id := newId, name := "Default Name", email := email, password := hashPw pw,
        role := .EDITOR, isVerified := false, isActive := true,
        verificationToken := some verificationToken,
        verificationTokenExpires := some (now + 24 * 60 * 60 * 1000),
        resetPasswordToken := none, resetPasswordExpires := none }
    (respMsg 201 true
      "User registered successfully. Please check your email for verification code.",
     db ++ [user])

/-- authController.signup.  An existing verified user yields 400.  An existing
unverified user is deleted before the fresh record is created.  A missing
email makes prisma.findUnique throw (missing unique argument), caught → 500. -/
def signup (hashPw : String → String) (errInfo : Option String) (rand now : Nat)
    (newId : String) (req : SignupReq) (db : List User) : Response × List User :=
  match req.email with
  | none => (resp500 "Error creating user" errInfo, db)
  | some email =>
    match findUserByEmail db email with
    | some u =>
      if u.isVerified then
        (respMsg 400 false "User with this email already exists", db)
      else
        signupCreate hashPw errInfo rand now newId email req.password
          (deleteUserById db u.id)
    | none => signupCreate hashPw errInfo rand now newId email req.password db

/-- The request body of POST /login. -/
structure LoginReq where
  email : Option String
  password : Option String
deriving Repr, DecidableEq

/-- The observable outcome of login: the JSON response plus the cookie that
`res.cookie` sets (name, value), when any. -/
structure LoginResult where
  resp : Response
  cookie : Option (String × String)

/-- The `userData` literal login returns inside `data.user`. -/
def userDataJVal (u : User) : JVal :=
  JVal.jObj [("id", JVal.jStr u.id), ("name", JVal.jStr u.name),
    ("email", JVal.jStr u.email), ("role", JVal.jStr u.role.str)]

/-- authController.login.  The checks run in source order: user exists, then
bcrypt.compare, then isActive, then isVerified; on success a token signed over
`{ id, role }` is returned and also set as a cookie named "jwt".  A missing
email or password makes the corresponding collaborator call throw → 500. -/
def login (bcompare : String → String → Bool) (signTok : String → UserRole → String)
    (errInfo : Option String) (req : LoginReq) (db : List User) : LoginResult :=
  match req.email with
  | none => ⟨resp500 "Error logging in" errInfo, none⟩
  | some email =>
    match findUserByEmail db email with
    | none => ⟨respMsg 401 false "User does not exists", none⟩
    | some user =>
      match req.password with
      | none => ⟨resp500 "Error logging in" errInfo, none⟩
      | some password =>
        if !bcompare password user.password then
          ⟨respMsg 401 false "Invalid credentials", none⟩
        else if user.isActive == false then
          ⟨respMsg 401 false "Your account is not active please contact admin", none⟩
        else if !user.isVerified then
          ⟨respMsg 401 false "Please verify your email before logging in", none⟩
        else
          let token := signTok user.id user.role
          ⟨{ status := 200,
             body := [("success", JVal.jBool true), ("token", JVal.jStr token),
               ("data", JVal.jObj [("user", userDataJVal user)])] },
           some ("jwt", token)⟩

/-- authController.forgotPassword.  `rawToken` stands for the hex form of
crypto.randomBytes(32); only its SHA-256 digest is written to the user
record, together with a 10-minute expiry. -/
def forgotPassword (sha256 : String → String) (errInfo : Option String)
    (rawToken : String) (now : Nat) (email : Option String) (db : List User) :
    Response × List User :=
  match email with
  | none => (resp500 "Error processing request" errInfo, db)
  | some e =>
    match findUserByEmail db e with
    | none => (respMsg 404 false "User not found", db)
    | some user =>
      let hashedToken := sha256 rawToken
      (respMsg 200 true "Password reset link sent to your email",
       updateUserById db user.id (fun u =>
         { u with resetPasswordToken := some hashedToken,
                  resetPasswordExpires := some (now + 10 * 60 * 1000) }))

/-- The prisma where clause of resetPassword's findFirst: the stored reset
hash equals the re-hashed presented token and `resetPasswordExpires` is
strictly in the future (a null expiry never satisfies `gt`). -/
def resetTokenMatches (hashedToken : String) (now : Nat) (u : User) : Bool :=
  u.resetPasswordToken == some hashedToken &&
    (match u.resetPasswordExpires with
     | some e => now < e
     | none => false)

/-- authController.resetPassword.  The token is taken from the body or, when
that is falsy, from the query; a falsy token yields 400; an unmatched or
expired token yields 400; on success the password is replaced and both reset
fields are cleared.  A missing new password makes bcrypt.hash throw → 500,
before any write. -/
def resetPassword (sha256 hashPw : String → String) (errInfo : Option String)
    (bodyToken queryToken password : Option String) (now : Nat) (db : List User) :
    Response × List User :=
  let token := jsOrStr bodyToken queryToken
  if !jsTruthy token then
    (respMsg 400 false "Reset token is required", db)
  else
    let hashedToken := sha256 (token.getD "")
    match db.find? (resetTokenMatches hashedToken now) with
    | none => (respMsg 400 false "Token is invalid or has expired", db)
    | some user =>
      match password with
      | none => (resp500 "Error processing request" errInfo, db)
      | some pw =>
        ({ status := 200,
           body := [("status", JVal.jStr "success"),
             ("message", JVal.jStr "Password reset successful")] },
         updateUserById db user.id (fun u =>
           { u with password := hashPw pw,
                    resetPasswordToken := none, resetPasswordExpires := none }))

/-! ## middleware/authMiddleware.js -/

/-- The payload jwt.sign encodes and jwt.verify recovers: `{ id, role }`. -/
structure TokenPayload where
  id : String
  role : UserRole
deriving Repr, DecidableEq

/-- The parts of the incoming request the middleware looks at: the parsed
cookies and the Authorization header. -/
structure AuthReq where
  cookies : List (String × String)
  authorization : Option String
deriving Repr, DecidableEq

/-- Cookie lookup: `req.cookies.<name>`. -/
def getCookie (cs : List (String × String)) (n : String) : Option String :=
  (cs.find? (fun p => p.1 == n)).map (fun p => p.2)

/-- JS `String.prototype.split` on a single separator character (consecutive
separators yield empty pieces), spelled out over the character list. -/
def splitOnCharAux (sep : Char) : List Char → List Char → List (List Char)
  | [], acc => [acc.reverse]
  | c :: rest, acc =>
    if c == sep then acc.reverse :: splitOnCharAux sep rest []
    else splitOnCharAux sep rest (c :: acc)

/-- `s.split(sep)` for a one-character separator. -/
def splitOnChar (sep : Char) (s : String) : List String :=
  (splitOnCharAux sep s.data []).map (fun cs => ⟨cs⟩)

/-- Token extraction in `protect`: the cookie named "token" when truthy,
otherwise the part after the blank in a "Bearer ..." Authorization header
(`header.split(' ')[1]`). -/
def protectToken (req : AuthReq) : Option String :=
  if jsTruthy (getCookie req.cookies "token") then getCookie req.cookies "token"
  else
    match req.authorization with
    | some h =>
      if List.isPrefixOf "Bearer".data h.data then (splitOnChar ' ' h).get? 1
      else none
    | none => none

/-- The outcome of a middleware chain: an early response, or control handed
to the handler with `req.user` attached. -/
inductive ProtectResult where
  | halt : Response → ProtectResult
  | proceed : User → ProtectResult

/-- middleware `protect`.  `verifyTok` stands for jwt.verify against
JWT_SECRET: it yields the payload for a well-signed, unexpired token and
`none` (a thrown error, caught → 401) otherwise. -/
def protect (verifyTok : String → Option TokenPayload) (req : AuthReq)
    (db : List User) : ProtectResult :=
  let token := protectToken req
  if !jsTruthy token then
    .halt (respMsg 401 false "You are not logged in. Please log in to get access.")
  else
    match verifyTok (token.getD "") with
    | none => .halt (respMsg 401 false "Invalid token or authentication failed.")
    | some decoded =>
      match findUserById db decoded.id with
      | none =>
        .halt (respMsg 401 false "The user belonging to this token no longer exists.")
      | some currentUser =>
        if !currentUser.isActive then
          .halt (respMsg 401 false "Your account is not active. Please contact admin.")
        else
          .proceed currentUser

/-- middleware `restrictTo(...roles)`: 403 when the authenticated user's role
is not in the allow-list, otherwise pass. -/
def restrictTo (roles : List UserRole) (u : User) : Option Response :=
  if !roles.contains u.role then
    some (respMsg 403 false "You do not have permission to perform this action.")
  else none

/-- A role-gated route as wired in router/routes.js: `protect` followed by
`restrictTo(roles)`. -/
def runGuarded (verifyTok : String → Option TokenPayload) (roles : List UserRole)
    (req : AuthReq) (db : List User) : ProtectResult :=
  match protect verifyTok req db with
  | .halt r => .halt r
  | .proceed u =>
    match restrictTo roles u with
    | some r => .halt r
    | none => .proceed u

/-! ## controllers/newsController.js -/

/-- model News (schema defaults isTrending false, isActive true); timestamps
omitted as for User. -/
structure News where
  id : String
  title : String
  content : String
  category : String
  imageUrl : Option String
  isTrending : Bool
  isActive : Bool
deriving Repr, DecidableEq

/-- prisma news.findUnique on the `id` primary key. -/
def findNewsById (db : List News) (i : String) : Option News :=
  db.find? (fun r => r.id == i)

/-- prisma news.update on the `id` primary key. -/
def updateNewsById (db : List News) (i : String) (f : News → News) : List News :=
  db.map (fun r => if r.id == i then f r else r)

/-- prisma `contains` with mode `insensitive`: case-insensitive substring,
spelled out over lowercased character lists. -/
def containsCI (s sub : String) : Bool :=
  decide (List.IsInfix (sub.data.map Char.toLower) (s.data.map Char.toLower))

/-- The News record as serialized into JSON payloads. -/
def newsJVal (r : News) : JVal :=
  JVal.jObj [("id", JVal.jStr r.id), ("title", JVal.jStr r.title),
    ("content", JVal.jStr r.content), ("category", JVal.jStr r.category),
    ("imageUrl", match r.imageUrl with | some u => JVal.jStr u | none => JVal.jNull),
    ("isTrending", JVal.jBool r.isTrending), ("isActive", JVal.jBool r.isActive)]

/-- The `{ success, data, message }` response literal of the news
endpoints. -/
def respData (status : Nat) (ok : Bool) (data : JVal) (msg : String) : Response :=
  { status := status,
    body := [("success", JVal.jBool ok), ("data", data), ("message", JVal.jStr msg)] }

/-- The query parameters of GET /news after parseInt, with their declared
defaults (page=1, limit=10, search=''). -/
structure NewsQuery where
  page : Nat := 1
  limit : Nat := 10
  search : String := ""
  active : Option String := none
  category : Option String := none
  trending : Option String := none
deriving Repr, DecidableEq

/-- `v === 'true' ? true : v === 'false' ? false : undefined`. -/
def triStateFlag (v : Option String) : Option Bool :=
  if v == some "true" then some true
  else if v == some "false" then some false
  else none

/-- The where clause getAllNews builds: when the search string is truthy an
OR over title/content/category, plus the isActive / isTrending / category
filters when supplied. -/
def newsMatches (q : NewsQuery) (r : News) : Bool :=
  (q.search.isEmpty ||
    (containsCI r.title q.search || containsCI r.content q.search ||
      containsCI r.category q.search)) &&
  (match triStateFlag q.active with | some b => r.isActive == b | none => true) &&
  (match triStateFlag q.trending with | some b => r.isTrending == b | none => true) &&
  (match q.category with
   | some c => c.isEmpty || containsCI r.category c
   | none => true)

/-- `Math.ceil(a / b)` over naturals, faithful for `b ≥ 1` (the handlers
divide by the parsed limit). -/
def jsCeilDiv (a b : Nat) : Nat := (a + b - 1) / b

/-- The observable output of GET /news: status, the page of records, and the
pagination block. -/
structure NewsListResult where
  status : Nat
  news : List News
  total : Nat
  pages : Nat
  page : Nat
  limit : Nat
deriving Repr, DecidableEq

/-- newsController.getAllNews.  The db list stands for the news collection in
the order prescribed by the orderBy clause (sorting is performed by the
external database); count and findMany share the same where clause; findMany
additionally applies skip = (page-1)*limit and take = limit. -/
def getAllNews (q : NewsQuery) (db : List News) : NewsListResult :=
  let skip := (q.page - 1) * q.limit
  let filtered := db.filter (newsMatches q)
  let totalCount := filtered.length
  { status := 200, news := (filtered.drop skip).take q.limit,
    total := totalCount, pages := jsCeilDiv totalCount q.limit,
    page := q.page, limit := q.limit }

/-- The body of POST /news as destructured; the destructuring defaults
isTrending=false, isActive=true apply when the field is absent. -/
structure CreateNewsReq where
  title : Option String := none
  content : Option String := none
  category : Option String := none
  isTrending : Option Bool := none
  isActive : Option Bool := none
deriving Repr, DecidableEq

/-- newsController.createNews: the three required fields are checked with JS
falsiness (absent or empty string fails), then the record is persisted. -/
def createNews (newId : String) (req : CreateNewsReq) (db : List News) :
    Response × List News :=
  if !jsTruthy req.title || !jsTruthy req.content || !jsTruthy req.category then
    (respMsg 400 false "Title, content, and category are required fields", db)
  else
    let news : News :=
      { id := newId, title := req.title.getD "", content := req.content.getD "",
        category := req.category.getD "", imageUrl := none,
        isTrending := req.isTrending.getD false, isActive := req.isActive.getD true }
    (respData 201 true (newsJVal news) "News created successfully", db ++ [news])

/-- newsController.getNewsById: 404 on a missing record. -/
def getNewsById (i : String) (db : List News) : Response :=
  match findNewsById db i with
  | none => respMsg 404 false "News not found"
  | some news => respData 200 true (newsJVal news) "News retrieved successfully"

/-- newsController.toggleNewsStatus: read the record, then write the negation
of the value just read into isActive. -/
def toggleNewsStatus (i : String) (db : List News) : Response × List News :=
  match findNewsById db i with
  | none => (respMsg 404 false "News not found", db)
  | some existingNews =>
    let updatedNews := { existingNews with isActive := !existingNews.isActive }
    (respData 200 true (newsJVal updatedNews) "News status toggled successfully",
     updateNewsById db i (fun r => { r with isActive := !existingNews.isActive }))

/-- newsController.toggleTrendingStatus: same read-then-write on
isTrending. -/
def toggleTrendingStatus (i : String) (db : List News) : Response × List News :=
  match findNewsById db i with
  | none => (respMsg 404 false "News not found", db)
  | some existingNews =>
    let updatedNews := { existingNews with isTrending := !existingNews.isTrending }
    (respData 200 true (newsJVal updatedNews)
      "News trending status toggled successfully",
     updateNewsById db i (fun r => { r with isTrending := !existingNews.isTrending }))

/-! ## controllers/userController.js -/

/-- The query parameters of GET /user.  The role filter string is decoded
into the enum at the ORM validation boundary, so it is carried here already
parsed; `isActive` keeps its raw string form because the handler compares it
with === 'true' itself. -/
structure UsersQuery where
  page : Nat := 1
  limit : Nat := 10
  role : Option UserRole := none
  isActive : Option String := none
  search : Option String := none
deriving Repr, DecidableEq

/-- The where clause getUsers builds. -/
def userMatches (q : UsersQuery) (u : User) : Bool :=
  (match q.role with | some r => u.role == r | none => true) &&
  (match q.isActive with | some s => u.isActive == (s == "true") | none => true) &&
  (match q.search with
   | some s => s.isEmpty || (containsCI u.email s || containsCI u.name s)
   | none => true)

/-- The observable output of GET /user. -/
structure UsersListResult where
  status : Nat
  users : List User
  page : Nat
  limit : Nat
  total : Nat
  pages : Nat
deriving Repr, DecidableEq

/-- userController.getUsers, same pagination shape as getAllNews (findMany
and count run over the same where clause, via Promise.all). -/
def getUsers (q : UsersQuery) (db : List User) : UsersListResult :=
  let skip := (q.page - 1) * q.limit
  let filtered := db.filter (userMatches q)
  let total := filtered.length
  { status := 200, users := (filtered.drop skip).take q.limit,
    page := q.page, limit := q.limit, total := total,
    pages := jsCeilDiv total q.limit }

/-- Is the string a well-formed ObjectId (24 hex characters)?  The ORM's
findUnique on the id column throws error code P2023 otherwise. -/
def isValidObjectId (s : String) : Bool :=
  s.length == 24 && s.data.all (fun c =>
    c.isDigit || "abcdef".data.contains c || "ABCDEF".data.contains c)

/-- The `select` projection the user endpoints return (password and token
fields excluded; the timestamps it also selects are persistence-owned and
omitted here). -/
def userSelectJVal (u : User) : JVal :=
  JVal.jObj [("id", JVal.jStr u.id), ("name", JVal.jStr u.name),
    ("email", JVal.jStr u.email), ("role", JVal.jStr u.role.str),
    ("isActive", JVal.jBool u.isActive), ("isVerified", JVal.jBool u.isVerified)]

/-- userController.getUserById, including its catch-branch fallback: when the
id is not a well-formed ObjectId, findUnique throws P2023 and the handler
guesses — for an id longer than 20 characters it looks the *request* user
(`req.user`, set by `protect`) up by email, or, absent that, loads every user
and returns the first one.  `userCtx` is `req.user`. -/
def getUserById (userCtx : Option User) (i : String) (db : List User) : Response :=
  let user : Option User :=
    if isValidObjectId i then
      findUserById db i
    else if i.length > 20 then
      match userCtx with
      | some cu => findUserByEmail db cu.email
      | none => db.head?
    else none
  match user with
  | none => respMsg 404 false "User not found"
  | some u =>
    { status := 200, body := [("success", JVal.jBool true), ("data", userSelectJVal u)] }

/-! ## controllers/festivalEventController.js -/

/-- model FestivalEvent; timestamps omitted. -/
structure FestivalEvent where
  id : String
  title : String
  description : String
  date : Nat
  location : Option String
  isOnline : Bool
  isActive : Bool
  imageUrl : Option String
deriving Repr, DecidableEq

/-- The FestivalEvent record as serialized into JSON payloads. -/
def festivalEventJVal (r : FestivalEvent) : JVal :=
  JVal.jObj [("id", JVal.jStr r.id), ("title", JVal.jStr r.title),
    ("description", JVal.jStr r.description), ("date", JVal.jNum r.date),
    ("location", match r.location with | some l => JVal.jStr l | none => JVal.jNull),
    ("isOnline", JVal.jBool r.isOnline), ("isActive", JVal.jBool r.isActive),
    ("imageUrl", match r.imageUrl with | some u => JVal.jStr u | none => JVal.jNull)]

/-- The body of POST /festival-events as destructured. -/
structure CreateFestivalEventReq where
  title : Option String := none
  description : Option String := none
  date : Option String := none
  location : Option String := none
  isOnline : Option Bool := none
  isActive : Option Bool := none
  imageUrl : Option String := none
deriving Repr, DecidableEq

/-- festivalEventController.createFestivalEvent.  `parseDate` stands for
`new Date(string)`.  Required fields title, description and date are checked
with JS falsiness; `isOnline || false` and the `isActive !== undefined`
ternary supply the remaining defaults. -/
def createFestivalEvent (parseDate : String → Nat) (newId : String)
    (req : CreateFestivalEventReq) (db : List FestivalEvent) :
    Response × List FestivalEvent :=
  if !jsTruthy req.title || !jsTruthy req.description || !jsTruthy req.date then
    (respMsg 400 false "Please provide title, description, and date", db)
  else
    let ev : FestivalEvent :=
      { id := newId, title := req.title.getD "",
        description := req.description.getD "",
        date := parseDate (req.date.getD ""), location := req.location,
        isOnline := req.isOnline.getD false, isActive := req.isActive.getD true,
        imageUrl := req.imageUrl }
    ({ status := 201,
       body := [("success", JVal.jBool true),
         ("message", JVal.jStr "Festival event created successfully"),
         ("data", festivalEventJVal ev)] },
     db ++ [ev])

/-! ## index.js -/

/-- The root route handler (`app.get('/')`); res.json defaults to status
200. -/
def rootRouteResponse : Response :=
  { status := 200,
    body := [("message", JVal.jStr "Welcome to the News Website API"),
      ("status", JVal.jStr "Server is running"),
      ("documentation", JVal.jStr "/api-docs")] }

/-! ## Helper lemmas -/

/-- An id-preserving update by id commutes with the find?-by-id lookup. -/
theorem find?_updateNewsById (db : List News) (i : String) (f : News → News)
    (hf : ∀ r, (f r).id = r.id) :
    (updateNewsById db i f).find? (fun r => r.id == i) =
      (db.find? (fun r => r.id == i)).map f := by
  induction db with
  | nil => rfl
  | cons a tl ih =>
    by_cases h : (a.id == i) = true
    · simp [updateNewsById, List.find?, h, hf a]
    · have h' : (a.id == i) = false := by simpa using h
      simpa [updateNewsById, List.find?, h', hf a] using ih

/-- Records whose id differs from the updated one survive an update by id
unchanged. -/
theorem mem_updateNewsById_of_ne (db : List News) (i : String) (f : News → News)
    (s : News) (hs : s ∈ db) (h : (s.id == i) = false) :
    s ∈ updateNewsById db i f := by
  unfold updateNewsById
  exact List.mem_map.mpr ⟨s, hs, by simp [h]⟩

/-! ## Claims -/

/-- C2: for a login request for an existing user, the failure checks run in
the order wrong password, then inactive account, then unverified account;
each failing check yields its own 401 response, and a later check is reached
only when every earlier one passed (the hypotheses of each conjunct are
exactly the earlier checks passing). -/
theorem login_check_order (bcompare : String → String → Bool)
    (signTok : String → UserRole → String) (errInfo : Option String)
    (email pw : String) (db : List User) (user : User)
    (hfind : findUserByEmail db email = some user) :
    (bcompare pw user.password = false →
      (login bcompare signTok errInfo ⟨some email, some pw⟩ db).resp =
        respMsg 401 false "Invalid credentials") ∧
    (bcompare pw user.password = true → user.isActive = false →
      (login bcompare signTok errInfo ⟨some email, some pw⟩ db).resp =
        respMsg 401 false "Your account is not active please contact admin") ∧
    (bcompare pw user.password = true → user.isActive = true →
      user.isVerified = false →
      (login bcompare signTok errInfo ⟨some email, some pw⟩ db).resp =
        respMsg 401 false "Please verify your email before logging in") ∧
    (bcompare pw user.password = true → user.isActive = true →
      user.isVerified = true →
      (login bcompare signTok errInfo ⟨some email, some pw⟩ db).resp.status = 200) := by
  refine ⟨fun h1 => ?_, fun h1 h2 => ?_, fun h1 h2 h3 => ?_, fun h1 h2 h3 => ?_⟩ <;>
    simp [login, hfind, h1]
  · simp [h2]
  · simp [h2, h3]
  · simp [h2, h3]

/-- C2 witness: a concrete existing user with a wrong password is rejected
with the invalid-credentials 401, and the same user logging in correctly
reaches the 200 path. -/
theorem login_check_order_witness :
    (login (fun p h => p == h) (fun _ _ => "tok") none
      ⟨some "a@b.c", some "wrong"⟩
      [⟨"507f1f77bcf86cd799439011", "N", "a@b.c", "pw", .EDITOR, true, true,
        none, none, none, none⟩]).resp =
      respMsg 401 false "Invalid credentials" ∧
    (login (fun p h => p == h) (fun _ _ => "tok") none
      ⟨some "a@b.c", some "pw"⟩
      [⟨"507f1f77bcf86cd799439011", "N", "a@b.c", "pw", .EDITOR, true, true,
        none, none, none, none⟩]).resp.status = 200 := by
  constructor
  · exact (login_check_order (fun p h => p == h) (fun _ _ => "tok") none
      "a@b.c" "wrong"
      [⟨"507f1f77bcf86cd799439011", "N", "a@b.c", "pw", .EDITOR, true, true,
        none, none, none, none⟩]
      ⟨"507f1f77bcf86cd799439011", "N", "a@b.c", "pw", .EDITOR, true, true,
        none, none, none, none⟩ (by decide)).1 (by decide)
  · exact (login_check_order (fun p h => p == h) (fun _ _ => "tok") none
      "a@b.c" "pw"
      [⟨"507f1f77bcf86cd799439011", "N", "a@b.c", "pw", .EDITOR, true, true,
        none, none, none, none⟩]
      ⟨"507f1f77bcf86cd799439011", "N", "a@b.c", "pw", .EDITOR, true, true,
        none, none, none, none⟩ (by decide)).2.2.2 (by decide) (by decide) (by decide)

/-- C4: signing up with the email of an existing verified user yields 400 and
leaves the table unchanged; with the email of an existing unverified user the
stale record is deleted and a fresh user is created carrying a new
verification code — the decimal numeral of a number in the six-digit range
[100000, 999999] — and a 24-hour expiry. -/
theorem signup_existing_email (hashPw : String → String) (errInfo : Option String)
    (rand now : Nat) (newId : String) (email pw : String) (db : List User)
    (u : User) (hfind : findUserByEmail db email = some u) :
    (u.isVerified = true →
      signup hashPw errInfo rand now newId ⟨some email, some pw⟩ db =
        (respMsg 400 false "User with this email already exists", db)) ∧
    (u.isVerified = false → rand < 900000 →
      signup hashPw errInfo rand now newId ⟨some email, some pw⟩ db =
        (respMsg 201 true
          "User registered successfully. Please check your email for verification code.",
         deleteUserById db u.id ++
           [{ id := newId, name := "Default Name", email := email,
              password := hashPw pw, role := .EDITOR, isVerified := false,
              isActive := true,
              verificationToken := some (Nat.repr (100000 + rand)),
              verificationTokenExpires := some (now + 24 * 60 * 60 * 1000),
              resetPasswordToken := none, resetPasswordExpires := none }]) ∧
      100000 ≤ 100000 + rand ∧ 100000 + rand ≤ 999999) := by
  constructor
  · intro hv
    simp [signup, hfind, hv]
  · intro hv hr
    refine ⟨?_, Nat.le_add_right _ _, by omega⟩
    simp [signup, hfind, hv, signupCreate]

/-- C4 witness: concrete signup against a table holding an unverified user
with the same email. -/
theorem signup_existing_email_witness :
    signup (fun s => s) none 234567 0 "507f1f77bcf86cd799439012"
      ⟨some "a@b.c", some "pw"⟩
      [⟨"507f1f77bcf86cd799439011", "N", "a@b.c", "old", .EDITOR, false, true,
        some "111111", some 5, none, none⟩] =
      (respMsg 201 true
        "User registered successfully. Please check your email for verification code.",
       deleteUserById
         [⟨"507f1f77bcf86cd799439011", "N", "a@b.c", "old", .EDITOR, false, true,
           some "111111", some 5, none, none⟩] "507f1f77bcf86cd799439011" ++
         [{ id := "507f1f77bcf86cd799439012", name := "Default Name",
            email := "a@b.c", password := "pw", role := .EDITOR,
            isVerified := false, isActive := true,
            verificationToken := some (Nat.repr (100000 + 234567)),
            verificationTokenExpires := some (0 + 24 * 60 * 60 * 1000),
            resetPasswordToken := none, resetPasswordExpires := none }]) ∧
    (Nat.repr (100000 + 234567)).length = 6 := by
  constructor
  · exact ((signup_existing_email (fun s => s) none 234567 0
      "507f1f77bcf86cd799439012" "a@b.c" "pw"
      [⟨"507f1f77bcf86cd799439011", "N", "a@b.c", "old", .EDITOR, false, true,
        some "111111", some 5, none, none⟩]
      ⟨"507f1f77bcf86cd799439011", "N", "a@b.c", "old", .EDITOR, false, true,
        some "111111", some 5, none, none⟩ (by decide)).2
      (by decide) (by decide)).1
  · decide

/-- C3: the password-reset lifecycle.  (a) forgotPassword persists only the
SHA-256 digest of the raw token, with an expiry 10 minutes from issuance, and
touches nothing else of the record; (b) a redemption whose re-hashed token
matches no record with an unexpired resetPasswordExpires is rejected with 400
and changes nothing; (c) a successful redemption replaces the password and
clears both reset fields; (d) a record whose reset fields were cleared (as a
consumed token's record is) never matches a redemption again. -/
theorem password_reset_lifecycle (sha256 hashPw : String → String)
    (errInfo : Option String) (now : Nat) (db : List User) :
    (∀ email u raw, findUserByEmail db email = some u →
      forgotPassword sha256 errInfo raw now (some email) db =
        (respMsg 200 true "Password reset link sent to your email",
         updateUserById db u.id (fun v =>
           { v with resetPasswordToken := some (sha256 raw),
                    resetPasswordExpires := some (now + 10 * 60 * 1000) }))) ∧
    (∀ t pw, t.isEmpty = false →
      db.find? (resetTokenMatches (sha256 t) now) = none →
      resetPassword sha256 hashPw errInfo (some t) none (some pw) now db =
        (respMsg 400 false "Token is invalid or has expired", db)) ∧
    (∀ t pw u, t.isEmpty = false →
      db.find? (resetTokenMatches (sha256 t) now) = some u →
      resetPassword sha256 hashPw errInfo (some t) none (some pw) now db =
        ({ status := 200,
           body := [("status", JVal.jStr "success"),
             ("message", JVal.jStr "Password reset successful")] },
         updateUserById db u.id (fun v =>
           { v with password := hashPw pw, resetPasswordToken := none,
                    resetPasswordExpires := none }))) ∧
    (∀ tok m (v : User), v.resetPasswordToken = none →
      resetTokenMatches tok m v = false) := by
  refine ⟨fun email u raw h => ?_, fun t pw ht hn => ?_,
    fun t pw u ht hf => ?_, fun tok m v hv => ?_⟩
  · simp [forgotPassword, h]
  · simp [resetPassword, jsOrStr, jsTruthy, ht, hn]
  · simp [resetPassword, jsOrStr, jsTruthy, ht, hf]
  · simp [resetTokenMatches, hv]

/-- C3 witness: a concrete user holding the digest of "raw" with an unexpired
expiry; redeeming with the raw token replaces the password and clears both
reset fields. -/
theorem password_reset_lifecycle_witness :
    resetPassword (fun s => "h" ++ s) (fun s => "b" ++ s) none
      (some "raw") none (some "npw") 500
      [⟨"507f1f77bcf86cd799439013", "N", "c@d.e", "H", .EDITOR, true, true,
        none, none, some "hraw", some 1000⟩] =
      ({ status := 200,
         body := [("status", JVal.jStr "success"),
           ("message", JVal.jStr "Password reset successful")] },
       updateUserById
         [⟨"507f1f77bcf86cd799439013", "N", "c@d.e", "H", .EDITOR, true, true,
           none, none, some "hraw", some 1000⟩]
         "507f1f77bcf86cd799439013"
         (fun v =>
           { v with password := "b" ++ "npw", resetPasswordToken := none,
                    resetPasswordExpires := none })) :=
  (password_reset_lifecycle (fun s => "h" ++ s) (fun s => "b" ++ s) none 500
    [⟨"507f1f77bcf86cd799439013", "N", "c@d.e", "H", .EDITOR, true, true,
      none, none, some "hraw", some 1000⟩]).2.2.1 "raw" "npw"
    ⟨"507f1f77bcf86cd799439013", "N", "c@d.e", "H", .EDITOR, true, true,
      none, none, some "hraw", some 1000⟩ (by decide) (by decide)

/-- C1 (amended): news create and festival-event create answer a missing (or
JS-falsy) required field with 400 and persist nothing; signup performs no
presence validation, so a missing email — or a missing password when the
email is not already held by a verified user, whether it is unregistered or
held by an unverified user (whose stale record is still deleted before the
failure) — is answered with 500 from the thrown collaborator error, while an
existing verified email still yields its usual 400 with the table unchanged;
in every such case no new record is persisted. -/
theorem create_missing_required_fields (hashPw : String → String)
    (errInfo : Option String) (rand now : Nat) (newId : String)
    (parseDate : String → Nat) :
    (∀ (req : CreateNewsReq) (db : List News),
      jsTruthy req.title = false ∨ jsTruthy req.content = false ∨
        jsTruthy req.category = false →
      createNews newId req db =
        (respMsg 400 false "Title, content, and category are required fields", db)) ∧
    (∀ (req : CreateFestivalEventReq) (db : List FestivalEvent),
      jsTruthy req.title = false ∨ jsTruthy req.description = false ∨
        jsTruthy req.date = false →
      createFestivalEvent parseDate newId req db =
        (respMsg 400 false "Please provide title, description, and date", db)) ∧
    (∀ (req : SignupReq) (db : List User),
      req.email = none ∨ req.password = none →
      ∀ v ∈ (signup hashPw errInfo rand now newId req db).2, v ∈ db) ∧
    (∀ (db : List User) (pw : Option String),
      signup hashPw errInfo rand now newId ⟨none, pw⟩ db =
        (resp500 "Error creating user" errInfo, db)) ∧
    (∀ (db : List User) (email : String),
      findUserByEmail db email = none →
      signup hashPw errInfo rand now newId ⟨some email, none⟩ db =
        (resp500 "Error creating user" errInfo, db)) ∧
    (∀ (db : List User) (email : String) (u : User),
      findUserByEmail db email = some u → u.isVerified = false →
      signup hashPw errInfo rand now newId ⟨some email, none⟩ db =
        (resp500 "Error creating user" errInfo, deleteUserById db u.id)) ∧
    (∀ (db : List User) (email : String) (u : User),
      findUserByEmail db email = some u → u.isVerified = true →
      ∀ pw : Option String,
      signup hashPw errInfo rand now newId ⟨some email, pw⟩ db =
        (respMsg 400 false "User with this email already exists", db)) := by
  refine ⟨fun req db h => ?_, fun req db h => ?_, ?_, fun db pw => ?_,
    fun db email h => ?_, fun db email u hf hv => ?_, fun db email u hf hv pw => ?_⟩
  · rcases h with h | h | h <;> simp [createNews, h]
  · rcases h with h | h | h <;> simp [createFestivalEvent, h]
  · rintro ⟨oe, op⟩ db h v hv
    cases oe with
    | none => simpa [signup] using hv
    | some e =>
      have hp : op = none := by
        rcases h with h | h
        · exact absurd h (by simp)
        · exact h
      subst hp
      simp only [signup] at hv
      cases hfe : findUserByEmail db e with
      | none => simpa [hfe, signupCreate] using hv
      | some u =>
        rw [hfe] at hv
        by_cases hvr : u.isVerified
        · simpa [hvr] using hv
        · simp only [hvr, if_false, Bool.false_eq_true, signupCreate] at hv
          exact List.mem_of_mem_filter hv
  · simp [signup]
  · simp [signup, h, signupCreate]
  · simp [signup, hf, hv, signupCreate]
  · simp [signup, hf, hv]

/-- C1 counterexample: a signup request whose body is missing the required
password field is answered with status 500 (the bcrypt error reaches the
generic catch), not the 400 the claim states. -/
theorem signup_missing_field_not_400 :
    (signup (fun s => s) none 0 0 "507f1f77bcf86cd799439011"
      ⟨some "a@b.c", none⟩ []).1.status = 500 ∧
    ¬ (signup (fun s => s) none 0 0 "507f1f77bcf86cd799439011"
      ⟨some "a@b.c", none⟩ []).1.status = 400 := by
  constructor <;> decide

/-- C1 witness: instantiating the amended theorem — a news create request
with an empty title is refused with 400 and the table is unchanged; the
counterexample signup run persists nothing; a signup missing its password
against an unverified holder of the email is answered 500 with only the
stale record deleted; and against a verified holder it is answered 400 with
the table unchanged. -/
theorem create_missing_required_fields_witness :
    createNews "n1" ⟨some "", some "c", some "k", none, none⟩ [] =
      (respMsg 400 false "Title, content, and category are required fields", []) ∧
    (∀ v ∈ (signup (fun s => s) none 0 0 "n1"
      ⟨some "a@b.c", none⟩ ([] : List User)).2, v ∈ ([] : List User)) ∧
    signup (fun s => s) none 0 0 "n1" ⟨some "a@b.c", none⟩
      [⟨"507f1f77bcf86cd799439014", "N", "a@b.c", "old", .EDITOR, false, true,
        some "111111", some 5, none, none⟩] =
      (resp500 "Error creating user" none,
       deleteUserById
         [⟨"507f1f77bcf86cd799439014", "N", "a@b.c", "old", .EDITOR, false, true,
           some "111111", some 5, none, none⟩] "507f1f77bcf86cd799439014") ∧
    signup (fun s => s) none 0 0 "n1" ⟨some "a@b.c", none⟩
      [⟨"507f1f77bcf86cd799439014", "N", "a@b.c", "old", .EDITOR, true, true,
        none, none, none, none⟩] =
      (respMsg 400 false "User with this email already exists",
       [⟨"507f1f77bcf86cd799439014", "N", "a@b.c", "old", .EDITOR, true, true,
         none, none, none, none⟩]) := by
  refine ⟨?_, ?_, ?_, ?_⟩
  · exact (create_missing_required_fields (fun s => s) none 0 0 "n1"
      (fun _ => 0)).1 ⟨some "", some "c", some "k", none, none⟩ [] (Or.inl (by decide))
  · exact (create_missing_required_fields (fun s => s) none 0 0 "n1"
      (fun _ => 0)).2.2.1 ⟨some "a@b.c", none⟩ [] (Or.inr rfl)
  · exact (create_missing_required_fields (fun s => s) none 0 0 "n1"
      (fun _ => 0)).2.2.2.2.2.1
      [⟨"507f1f77bcf86cd799439014", "N", "a@b.c", "old", .EDITOR, false, true,
        some "111111", some 5, none, none⟩] "a@b.c"
      ⟨"507f1f77bcf86cd799439014", "N", "a@b.c", "old", .EDITOR, false, true,
        some "111111", some 5, none, none⟩ (by decide) (by decide)
  · exact (create_missing_required_fields (fun s => s) none 0 0 "n1"
      (fun _ => 0)).2.2.2.2.2.2
      [⟨"507f1f77bcf86cd799439014", "N", "a@b.c", "old", .EDITOR, true, true,
        none, none, none, none⟩] "a@b.c"
      ⟨"507f1f77bcf86cd799439014", "N", "a@b.c", "old", .EDITOR, true, true,
        none, none, none, none⟩ (by decide) (by decide) none

/-- C6: the toggle endpoints on an existing news record answer 200 and leave
the store holding that record with the named boolean negated and every other
field unchanged (the looked-up record is exactly the old one with one field
flipped), with all other records and the record count untouched; on an absent
record they answer 404 and modify nothing. -/
theorem toggle_flag_frame (db : List News) (i : String) :
    (findNewsById db i = none →
      toggleNewsStatus i db = (respMsg 404 false "News not found", db) ∧
      toggleTrendingStatus i db = (respMsg 404 false "News not found", db)) ∧
    (∀ r, findNewsById db i = some r →
      (toggleNewsStatus i db).1.status = 200 ∧
      findNewsById (toggleNewsStatus i db).2 i =
        some { r with isActive := !r.isActive } ∧
      (toggleNewsStatus i db).2.length = db.length ∧
      (∀ s ∈ db, (s.id == i) = false → s ∈ (toggleNewsStatus i db).2)) ∧
    (∀ r, findNewsById db i = some r →
      (toggleTrendingStatus i db).1.status = 200 ∧
      findNewsById (toggleTrendingStatus i db).2 i =
        some { r with isTrending := !r.isTrending } ∧
      (toggleTrendingStatus i db).2.length = db.length ∧
      (∀ s ∈ db, (s.id == i) = false → s ∈ (toggleTrendingStatus i db).2)) := by
  refine ⟨fun h => ⟨by simp [toggleNewsStatus, h], by simp [toggleTrendingStatus, h]⟩,
    fun r h => ?_, fun r h => ?_⟩
  · have h' : db.find? (fun x => x.id == i) = some r := h
    refine ⟨by simp [toggleNewsStatus, h, respData], ?_, ?_, ?_⟩
    · simp only [toggleNewsStatus, h]
      show (updateNewsById db i _).find? (fun x => x.id == i) = _
      rw [find?_updateNewsById db i
        (fun x => { x with isActive := !r.isActive }) (fun x => rfl), h']
      rfl
    · simp [toggleNewsStatus, h, updateNewsById]
    · intro s hs hne
      simp only [toggleNewsStatus, h]
      exact mem_updateNewsById_of_ne db i _ s hs hne
  · have h' : db.find? (fun x => x.id == i) = some r := h
    refine ⟨by simp [toggleTrendingStatus, h, respData], ?_, ?_, ?_⟩
    · simp only [toggleTrendingStatus, h]
      show (updateNewsById db i _).find? (fun x => x.id == i) = _
      rw [find?_updateNewsById db i
        (fun x => { x with isTrending := !r.isTrending }) (fun x => rfl), h']
      rfl
    · simp [toggleTrendingStatus, h, updateNewsById]
    · intro s hs hne
      simp only [toggleTrendingStatus, h]
      exact mem_updateNewsById_of_ne db i _ s hs hne

/-- C6 witness: toggling the status of a concrete two-record store flips
isActive on the matched record and keeps the other record as it was. -/
theorem toggle_flag_frame_witness :
    findNewsById
      (toggleNewsStatus "507f1f77bcf86cd799439021"
        [⟨"507f1f77bcf86cd799439021", "T1", "C1", "K1", none, false, true⟩,
         ⟨"507f1f77bcf86cd799439022", "T2", "C2", "K2", none, true, false⟩]).2
      "507f1f77bcf86cd799439021" =
      some { (⟨"507f1f77bcf86cd799439021", "T1", "C1", "K1", none, false, true⟩ : News)
              with isActive := !true } ∧
    (⟨"507f1f77bcf86cd799439022", "T2", "C2", "K2", none, true, false⟩ : News) ∈
      (toggleNewsStatus "507f1f77bcf86cd799439021"
        [⟨"507f1f77bcf86cd799439021", "T1", "C1", "K1", none, false, true⟩,
         ⟨"507f1f77bcf86cd799439022", "T2", "C2", "K2", none, true, false⟩]).2 := by
  constructor
  · exact ((toggle_flag_frame
      [⟨"507f1f77bcf86cd799439021", "T1", "C1", "K1", none, false, true⟩,
       ⟨"507f1f77bcf86cd799439022", "T2", "C2", "K2", none, true, false⟩]
      "507f1f77bcf86cd799439021").2.1
      ⟨"507f1f77bcf86cd799439021", "T1", "C1", "K1", none, false, true⟩
      (by decide)).2.1
  · exact ((toggle_flag_frame
      [⟨"507f1f77bcf86cd799439021", "T1", "C1", "K1", none, false, true⟩,
       ⟨"507f1f77bcf86cd799439022", "T2", "C2", "K2", none, true, false⟩]
      "507f1f77bcf86cd799439021").2.1
      ⟨"507f1f77bcf86cd799439021", "T1", "C1", "K1", none, false, true⟩
      (by decide)).2.2.2
      ⟨"507f1f77bcf86cd799439022", "T2", "C2", "K2", none, true, false⟩
      (by decide) (by decide)

/-- C5: for the list endpoints (news and users), with 1-based page and a
positive limit: the returned page is exactly the filtered collection with the
first (page-1)*limit records skipped and at most limit taken; the reported
total counts the records matching the supplied predicates; the reported page
count is the ceiling of total/limit (stated both as Mathlib's ceiling
division and through its Galois characterisation); and every returned record
satisfies the supplied search/filter predicates. -/
theorem list_pagination (q : NewsQuery) (db : List News)
    (uq : UsersQuery) (udb : List User)
    (hp : 1 ≤ q.page) (hl : 1 ≤ q.limit) (hup : 1 ≤ uq.page) (hul : 1 ≤ uq.limit) :
    ((getAllNews q db).news =
        ((db.filter (newsMatches q)).drop ((q.page - 1) * q.limit)).take q.limit ∧
      (getAllNews q db).total = (db.filter (newsMatches q)).length ∧
      (getAllNews q db).pages = (getAllNews q db).total ⌈/⌉ q.limit ∧
      (∀ k, (getAllNews q db).pages ≤ k ↔ (getAllNews q db).total ≤ q.limit * k) ∧
      (getAllNews q db).news.length ≤ q.limit ∧
      (∀ r ∈ (getAllNews q db).news, newsMatches q r = true)) ∧
    ((getUsers uq udb).users =
        ((udb.filter (userMatches uq)).drop ((uq.page - 1) * uq.limit)).take uq.limit ∧
      (getUsers uq udb).total = (udb.filter (userMatches uq)).length ∧
      (getUsers uq udb).pages = (getUsers uq udb).total ⌈/⌉ uq.limit ∧
      (∀ k, (getUsers uq udb).pages ≤ k ↔ (getUsers uq udb).total ≤ uq.limit * k) ∧
      (getUsers uq udb).users.length ≤ uq.limit ∧
      (∀ u ∈ (getUsers uq udb).users, userMatches uq u = true)) := by
  constructor
  · refine ⟨rfl, rfl, rfl, fun k => ?_, List.length_take_le _ _, fun r hr => ?_⟩
    · show (db.filter (newsMatches q)).length ⌈/⌉ q.limit ≤ k ↔
        (db.filter (newsMatches q)).length ≤ q.limit * k
      rw [ceilDiv_le_iff_le_smul hl, smul_eq_mul]
    · exact (List.mem_filter.mp
        (List.mem_of_mem_drop (List.mem_of_mem_take hr))).2
  · refine ⟨rfl, rfl, rfl, fun k => ?_, List.length_take_le _ _, fun u hu => ?_⟩
    · show (udb.filter (userMatches uq)).length ⌈/⌉ uq.limit ≤ k ↔
        (udb.filter (userMatches uq)).length ≤ uq.limit * k
      rw [ceilDiv_le_iff_le_smul hul, smul_eq_mul]
    · exact (List.mem_filter.mp
        (List.mem_of_mem_drop (List.mem_of_mem_take hu))).2

/-- C5 witness: the default query (page 1, limit 10) over a concrete
two-record news store, with a one-record user store filtered by role. -/
theorem list_pagination_witness :
    (getAllNews {} [⟨"n1", "T1", "C1", "K1", none, false, true⟩,
        ⟨"n2", "T2", "C2", "K2", none, true, false⟩]).news =
      (([⟨"n1", "T1", "C1", "K1", none, false, true⟩,
        ⟨"n2", "T2", "C2", "K2", none, true, false⟩].filter
          (newsMatches {})).drop ((1 - 1) * 10)).take 10 ∧
    (getAllNews {} [⟨"n1", "T1", "C1", "K1", none, false, true⟩,
        ⟨"n2", "T2", "C2", "K2", none, true, false⟩]).news.length ≤ 10 := by
  constructor
  · exact (list_pagination {} [⟨"n1", "T1", "C1", "K1", none, false, true⟩,
      ⟨"n2", "T2", "C2", "K2", none, true, false⟩] {} []
      (by decide) (by decide) (by decide) (by decide)).1.1
  · exact (list_pagination {} [⟨"n1", "T1", "C1", "K1", none, false, true⟩,
      ⟨"n2", "T2", "C2", "K2", none, true, false⟩] {} []
      (by decide) (by decide) (by decide) (by decide)).1.2.2.2.2.1

/-- C7: on a role-gated route, a request that authenticates as an existing
active user whose role is outside the route's allow-list is answered 403,
while a request carrying no token at all is answered 401 before any role
check. -/
theorem role_gate (verifyTok : String → Option TokenPayload)
    (roles : List UserRole) (db : List User) (req : AuthReq) (tok : String)
    (u : User) :
    (protectToken req = some tok → tok.isEmpty = false →
      verifyTok tok = some ⟨u.id, u.role⟩ → findUserById db u.id = some u →
      u.isActive = true → roles.contains u.role = false →
      runGuarded verifyTok roles req db =
        .halt (respMsg 403 false "You do not have permission to perform this action.")) ∧
    (∀ req2 : AuthReq, protectToken req2 = none →
      runGuarded verifyTok roles req2 db =
        .halt (respMsg 401 false "You are not logged in. Please log in to get access.")) := by
  constructor
  · intro h1 h2 h3 h4 h5 h6
    have h6' : ¬ u.role ∈ roles := by simpa using h6
    simp [runGuarded, protect, h1, jsTruthy, h2, h3, h4, h5, restrictTo, h6']
  · intro req2 h
    simp [runGuarded, protect, h, jsTruthy]

/-- C7 witness: an EDITOR presenting a valid Bearer token on an ADMIN-only
route is answered 403; the same route with neither cookie nor header is
answered 401. -/
theorem role_gate_witness :
    runGuarded
      (fun t => if t == "tokE"
        then some ⟨"507f1f77bcf86cd799439031", .EDITOR⟩ else none)
      [.ADMIN] ⟨[], some "Bearer tokE"⟩
      [⟨"507f1f77bcf86cd799439031", "E", "e@x.y", "H", .EDITOR, true, true,
        none, none, none, none⟩] =
      .halt (respMsg 403 false "You do not have permission to perform this action.") ∧
    runGuarded
      (fun t => if t == "tokE"
        then some ⟨"507f1f77bcf86cd799439031", .EDITOR⟩ else none)
      [.ADMIN] ⟨[], none⟩
      [⟨"507f1f77bcf86cd799439031", "E", "e@x.y", "H", .EDITOR, true, true,
        none, none, none, none⟩] =
      .halt (respMsg 401 false "You are not logged in. Please log in to get access.") := by
  constructor
  · exact (role_gate
      (fun t => if t == "tokE"
        then some ⟨"507f1f77bcf86cd799439031", .EDITOR⟩ else none)
      [.ADMIN]
      [⟨"507f1f77bcf86cd799439031", "E", "e@x.y", "H", .EDITOR, true, true,
        none, none, none, none⟩]
      ⟨[], some "Bearer tokE"⟩ "tokE"
      ⟨"507f1f77bcf86cd799439031", "E", "e@x.y", "H", .EDITOR, true, true,
        none, none, none, none⟩).1
      (by decide) (by decide) (by decide) (by decide) (by decide) (by decide)
  · exact (role_gate
      (fun t => if t == "tokE"
        then some ⟨"507f1f77bcf86cd799439031", .EDITOR⟩ else none)
      [.ADMIN]
      [⟨"507f1f77bcf86cd799439031", "E", "e@x.y", "H", .EDITOR, true, true,
        none, none, none, none⟩]
      ⟨[], some "Bearer tokE"⟩ "tokE"
      ⟨"507f1f77bcf86cd799439031", "E", "e@x.y", "H", .EDITOR, true, true,
        none, none, none, none⟩).2 ⟨[], none⟩ (by decide)

/-- C8 (observed divergence, at a concrete input): login's success path sets
the session cookie under the name "jwt", but protect reads only a cookie
named "token"; a request carrying exactly the cookie login set — and no
Authorization header — is rejected 401 as not logged in, while the same token
presented through the Bearer header is accepted and the request proceeds with
the user attached. -/
theorem protect_cookie_transport :
    (login (fun p hp => p == hp) (fun _ _ => "tok1") none
      ⟨some "a@b.c", some "pw"⟩
      [⟨"507f1f77bcf86cd799439011", "N", "a@b.c", "pw", .ADMIN, true, true,
        none, none, none, none⟩]).cookie = some ("jwt", "tok1") ∧
    protect
      (fun t => if t == "tok1"
        then some ⟨"507f1f77bcf86cd799439011", .ADMIN⟩ else none)
      ⟨[("jwt", "tok1")], none⟩
      [⟨"507f1f77bcf86cd799439011", "N", "a@b.c", "pw", .ADMIN, true, true,
        none, none, none, none⟩] =
      .halt (respMsg 401 false "You are not logged in. Please log in to get access.") ∧
    protect
      (fun t => if t == "tok1"
        then some ⟨"507f1f77bcf86cd799439011", .ADMIN⟩ else none)
      ⟨[], some "Bearer tok1"⟩
      [⟨"507f1f77bcf86cd799439011", "N", "a@b.c", "pw", .ADMIN, true, true,
        none, none, none, none⟩] =
      .proceed ⟨"507f1f77bcf86cd799439011", "N", "a@b.c", "pw", .ADMIN, true, true,
        none, none, none, none⟩ :=
  ⟨rfl, rfl, rfl⟩

/-- C10 (observed divergence, at a concrete input): a getById request for a
malformed 25-character id triggers the P2023 fallback in getUserById, which
answers 200 with a record whose id is not the requested one — with a request
user attached (as protect does on this route) it returns the caller's record,
and without one it returns the first record of the whole table. -/
theorem getUserById_fallback_wrong_record :
    getUserById
      (some ⟨"507f1f77bcf86cd799439011", "A", "a@b.c", "H", .ADMIN, true, true,
        none, none, none, none⟩)
      "zzzzzzzzzzzzzzzzzzzzzzzzz"
      [⟨"507f1f77bcf86cd799439011", "A", "a@b.c", "H", .ADMIN, true, true,
        none, none, none, none⟩] =
      { status := 200,
        body := [("success", JVal.jBool true),
          ("data", userSelectJVal
            ⟨"507f1f77bcf86cd799439011", "A", "a@b.c", "H", .ADMIN, true, true,
              none, none, none, none⟩)] } ∧
    getUserById none "zzzzzzzzzzzzzzzzzzzzzzzzz"
      [⟨"507f1f77bcf86cd799439011", "A", "a@b.c", "H", .ADMIN, true, true,
        none, none, none, none⟩] =
      { status := 200,
        body := [("success", JVal.jBool true),
          ("data", userSelectJVal
            ⟨"507f1f77bcf86cd799439011", "A", "a@b.c", "H", .ADMIN, true, true,
              none, none, none, none⟩)] } ∧
    "507f1f77bcf86cd799439011" ≠ "zzzzzzzzzzzzzzzzzzzzzzzzz" :=
  ⟨rfl, rfl, by decide⟩

/-- C9 counterexample: resetPassword's success response is a 200 whose body
is the status/message literal with no boolean success field, and the root
route's welcome body also lacks one — refuting, at concrete inputs, that
every handler response carries a boolean success field. -/
theorem response_envelope_counterexample :
    (resetPassword (fun s => s) (fun s => s) none (some "raw") none
      (some "npw") 0
      [⟨"507f1f77bcf86cd799439013", "N", "c@d.e", "H", .EDITOR, true, true,
        none, none, some "raw", some 5⟩]).1.status = 200 ∧
    hasBoolSuccess
      (resetPassword (fun s => s) (fun s => s) none (some "raw") none
        (some "npw") 0
        [⟨"507f1f77bcf86cd799439013", "N", "c@d.e", "H", .EDITOR, true, true,
          none, none, some "raw", some 5⟩]).1.body = false ∧
    hasBoolSuccess rootRouteResponse.body = false := by
  refine ⟨by decide, by decide, by decide⟩

/-- Every `{ success, message }` literal carries the boolean field. -/
theorem hasBoolSuccess_respMsg (s : Nat) (ok : Bool) (m : String) :
    hasBoolSuccess (respMsg s ok m).body = true := rfl

/-- Every catch-all 500 literal carries the boolean field, with or without
the development-mode error payload. -/
theorem hasBoolSuccess_resp500 (m : String) (e : Option String) :
    hasBoolSuccess (resp500 m e).body = true := by cases e <;> rfl

/-- Every `{ success, data, message }` literal carries the boolean field. -/
theorem hasBoolSuccess_respData (s : Nat) (ok : Bool) (d : JVal) (m : String) :
    hasBoolSuccess (respData s ok d m).body = true := rfl

/-- C9 (amended): every JSON response produced by the embedded handlers, on
success and failure paths alike, carries a boolean success field — except
resetPassword's success (200) response, whose body is the status/message
literal, and the root route's welcome body. -/
theorem response_envelope_amended (hashPw sha256 : String → String)
    (bcompare : String → String → Bool) (signTok : String → UserRole → String)
    (parseDate : String → Nat) :
    (∀ errInfo rand now newId req (db : List User),
      hasBoolSuccess (signup hashPw errInfo rand now newId req db).1.body = true) ∧
    (∀ errInfo req (db : List User),
      hasBoolSuccess (login bcompare signTok errInfo req db).resp.body = true) ∧
    (∀ errInfo raw now email (db : List User),
      hasBoolSuccess (forgotPassword sha256 errInfo raw now email db).1.body = true) ∧
    (∀ errInfo bt qt pw now (db : List User),
      hasBoolSuccess (resetPassword sha256 hashPw errInfo bt qt pw now db).1.body = true ∨
      (resetPassword sha256 hashPw errInfo bt qt pw now db).1 =
        { status := 200,
          body := [("status", JVal.jStr "success"),
            ("message", JVal.jStr "Password reset successful")] }) ∧
    (∀ newId req (db : List News),
      hasBoolSuccess (createNews newId req db).1.body = true) ∧
    (∀ newId req (db : List FestivalEvent),
      hasBoolSuccess (createFestivalEvent parseDate newId req db).1.body = true) ∧
    (∀ i (db : List News), hasBoolSuccess (getNewsById i db).body = true) ∧
    (∀ i (db : List News),
      hasBoolSuccess (toggleNewsStatus i db).1.body = true) ∧
    (∀ i (db : List News),
      hasBoolSuccess (toggleTrendingStatus i db).1.body = true) ∧
    (∀ ctx i (db : List User),
      hasBoolSuccess (getUserById ctx i db).body = true) ∧
    (∀ q (db : List News), (getAllNews q db).status = 200) ∧
    hasBoolSuccess rootRouteResponse.body = false := by
  refine ⟨?_, ?_, ?_, ?_, ?_, ?_, ?_, ?_, ?_, ?_, fun q db => rfl, rfl⟩
  · rintro errInfo rand now newId ⟨oe, op⟩ db
    cases oe with
    | none => exact hasBoolSuccess_resp500 _ _
    | some e =>
      simp only [signup]
      cases hfe : findUserByEmail db e with
      | none =>
        cases op with
        | none => exact hasBoolSuccess_resp500 _ _
        | some pw => exact hasBoolSuccess_respMsg _ _ _
      | some u =>
        by_cases hv : u.isVerified
        · simp only [hv, if_true]
          exact hasBoolSuccess_respMsg _ _ _
        · simp only [hv, if_false, Bool.false_eq_true, signupCreate]
          cases op with
          | none => exact hasBoolSuccess_resp500 _ _
          | some pw => exact hasBoolSuccess_respMsg _ _ _
  · rintro errInfo ⟨oe, op⟩ db
    cases oe with
    | none => exact hasBoolSuccess_resp500 _ _
    | some e =>
      simp only [login]
      cases hfe : findUserByEmail db e with
      | none => exact hasBoolSuccess_respMsg _ _ _
      | some u =>
        cases op with
        | none => exact hasBoolSuccess_resp500 _ _
        | some pw =>
          by_cases h1 : bcompare pw u.password
          · by_cases h2 : u.isActive
            · by_cases h3 : u.isVerified
              · simp [h1, h2, h3, hasBoolSuccess]
              · simp [h1, h2, h3, hasBoolSuccess_respMsg]
            · simp [h1, h2, hasBoolSuccess_respMsg]
          · simp [h1, hasBoolSuccess_respMsg]
  · rintro errInfo raw now email db
    cases email with
    | none => exact hasBoolSuccess_resp500 _ _
    | some e =>
      simp only [forgotPassword]
      cases findUserByEmail db e with
      | none => exact hasBoolSuccess_respMsg _ _ _
      | some u => exact hasBoolSuccess_respMsg _ _ _
  · rintro errInfo bt qt pw now db
    simp only [resetPassword]
    by_cases ht : jsTruthy (jsOrStr bt qt)
    · simp only [ht, Bool.not_true, if_false, Bool.false_eq_true]
      cases db.find? (resetTokenMatches (sha256 ((jsOrStr bt qt).getD "")) now) with
      | none => exact Or.inl (hasBoolSuccess_respMsg _ _ _)
      | some u =>
        cases pw with
        | none => exact Or.inl (hasBoolSuccess_resp500 _ _)
        | some p => exact Or.inr rfl
    · simp only [ht, Bool.not_false, if_true]
      exact Or.inl (hasBoolSuccess_respMsg _ _ _)
  · rintro newId req db
    simp only [createNews]
    by_cases h : (!jsTruthy req.title || !jsTruthy req.content ||
        !jsTruthy req.category) = true
    · simp only [h, if_true]
      exact hasBoolSuccess_respMsg _ _ _
    · simp only [h, if_false]
      exact hasBoolSuccess_respData _ _ _ _
  · rintro newId req db
    simp only [createFestivalEvent]
    by_cases h : (!jsTruthy req.title || !jsTruthy req.description ||
        !jsTruthy req.date) = true
    · simp only [h, if_true]
      exact hasBoolSuccess_respMsg _ _ _
    · simp only [h, if_false]
      rfl
  · rintro i db
    simp only [getNewsById]
    cases findNewsById db i with
    | none => exact hasBoolSuccess_respMsg _ _ _
    | some r => exact hasBoolSuccess_respData _ _ _ _
  · rintro i db
    simp only [toggleNewsStatus]
    cases findNewsById db i with
    | none => exact hasBoolSuccess_respMsg _ _ _
    | some r => exact hasBoolSuccess_respData _ _ _ _
  · rintro i db
    simp only [toggleTrendingStatus]
    cases findNewsById db i with
    | none => exact hasBoolSuccess_respMsg _ _ _
    | some r => exact hasBoolSuccess_respData _ _ _ _
  · rintro ctx i db
    simp only [getUserById]
    cases (if isValidObjectId i then findUserById db i
      else if i.length > 20 then
        match ctx with
        | some cu => findUserByEmail db cu.email
        | none => db.head?
      else none) with
    | none => exact hasBoolSuccess_respMsg _ _ _
    | some u => rfl

end NhcsBE
